import Mathlib

/-!
Verification of the environment-configuration validation and health-check
subsystem of the Express backend (src/server/index.ts), together with the
request-validation middleware and the terminal error handler.

The embedding is shallow: each TypeScript routine is rendered as a total
Lean function over explicit inputs.  Environment variables are three
optional strings; the zod schema `envSchema` is rendered as an
issue-accumulating validator (zod object parsing validates every key and
concatenates the issue lists in declaration order; string checks such as
`min` and `regex` each contribute their own issue and do not
short-circuit, while the `transform`/`refine` stage runs only once the
string checks have passed); JavaScript `parseInt`, string truthiness,
`startsWith` and `Array.join` are modelled explicitly.
-/

/-- JS digit character class `\d` (exactly the ASCII digits 0-9). -/
def jsDigit (c : Char) : Bool := 48 ≤ c.toNat && c.toNat ≤ 57

/-- Whitespace skipped by JS `parseInt` (tab, LF, VT, FF, CR, space,
NBSP, BOM; the Unicode space separators are omitted as immaterial here). -/
def jsSpace (c : Char) : Bool :=
  c.toNat = 9 || c.toNat = 10 || c.toNat = 11 || c.toNat = 12 ||
  c.toNat = 13 || c.toNat = 32 || c.toNat = 160 || c.toNat = 65279

/-- Numeric value of a list of ASCII digit characters (most significant
first), as computed by JS `Number`/`parseInt` on an all-digit string. -/
def natOfDigits (cs : List Char) : Nat :=
  cs.foldl (fun a c => a * 10 + (c.toNat - 48)) 0

/-- The leading digit run of a character list: `none` when there is no
leading digit (JS `NaN`), otherwise its numeric value. -/
def digitRun (cs : List Char) : Option Nat :=
  let ds := cs.takeWhile jsDigit
  if ds.isEmpty then none else some (natOfDigits ds)

/-- JS `parseInt(s, 10)`: skip leading whitespace, read an optional
sign, then the longest leading digit run; `none` models `NaN`. -/
def jsParseInt (s : String) : Option Int :=
  match s.data.dropWhile jsSpace with
  | [] => none
  | c :: rest =>
    if c = '-' then (digitRun rest).map (fun n => -(n : Int))
    else if c = '+' then (digitRun rest).map (fun n => (n : Int))
    else (digitRun (c :: rest)).map (fun n => (n : Int))

/-- JS `Array.prototype.join(sep)`. -/
def jsJoin (sep : String) : List String → String
  | [] => ""
  | [a] => a
  | a :: b :: rest => a ++ sep ++ jsJoin sep (b :: rest)

/-- JS regex test `^\d+$` (no `m` flag, so `$` is the very end of the
input): non-empty and every character an ASCII digit. -/
def digitString (s : String) : Bool := !s.data.isEmpty && s.data.all jsDigit

/-- JS line terminators, which `.` does not match. -/
def jsLineTerm (c : Char) : Bool :=
  c.toNat = 10 || c.toNat = 13 || c.toNat = 8232 || c.toNat = 8233

/-- JS regex test `^mysql:\/\/.+`: the literal prefix `mysql://`
followed by at least one non-line-terminator character (the pattern is
not anchored at the end). -/
def mysqlRegexMatch (s : String) : Bool :=
  match s.data with
  | 'm' :: 'y' :: 's' :: 'q' :: 'l' :: ':' :: '/' :: '/' :: c :: _ => !jsLineTerm c
  | _ => false

/-- JS `s.startsWith("mysql://")`, as used by the health check. -/
def startsWithMysql (s : String) : Bool :=
  match s.data with
  | 'm' :: 'y' :: 's' :: 'q' :: 'l' :: ':' :: '/' :: '/' :: _ => true
  | _ => false

/-- The environment state read through `process.env`: each of the three
recognized variables is either absent or an arbitrary string. -/
structure EnvState where
  PORT : Option String
  NODE_ENV : Option String
  DATABASE_URL : Option String
deriving Repr, DecidableEq

/-- Issue messages produced for `envSchema.PORT`
(`z.string().min(1).regex(^\d+$).transform(Number).refine(0 < n < 65536)`).
An absent value fails with the zod `invalid_type` issue; the `min` and
`regex` checks each accumulate their own issue; the range refinement is
reached only when the string checks pass. -/
def portIssues : Option String → List String
  | none => ["Required"]
  | some s =>
    let checks :=
      (if s.data.length < 1 then ["PORT is required"] else []) ++
      (if digitString s then [] else ["PORT must be a valid port number"])
    if checks.isEmpty then
      if 0 < natOfDigits s.data ∧ natOfDigits s.data < 65536 then []
      else ["PORT must be between 1 and 65535"]
    else checks

/-- Issue messages produced for `envSchema.NODE_ENV`
(`z.enum([development, production, test], message)`); the custom message
applies to both the missing and the wrong-value case. -/
def nodeEnvIssues : Option String → List String
  | none => ["NODE_ENV must be one of: development, production, test"]
  | some s =>
    if s = "development" || s = "production" || s = "test" then []
    else ["NODE_ENV must be one of: development, production, test"]

/-- Issue messages produced for `envSchema.DATABASE_URL`
(`z.string().min(1).regex(^mysql:\/\/.+)`). -/
def databaseUrlIssues : Option String → List String
  | none => ["Required"]
  | some s =>
    (if s.data.length < 1 then ["DATABASE_URL is required"] else []) ++
    (if mysqlRegexMatch s then []
     else ["DATABASE_URL must be a valid MySQL connection string (mysql://...)"])

/-- A Validation Error: the issue path joined with `.` (here always the
single key) and the message, as formatted by `validateEnvironment` and
by the validation middleware. -/
structure ValidationIssue where
  field : String
  message : String
deriving Repr, DecidableEq

/-- All issues of `envSchema.parse` on an environment state: zod object
parsing validates every key independently (no short-circuit on the first
failure) and concatenates the issue lists in declaration order
PORT, NODE_ENV, DATABASE_URL. -/
def envSchemaIssues (e : EnvState) : List ValidationIssue :=
  (portIssues e.PORT).map (fun m => ⟨"PORT", m⟩) ++
  (nodeEnvIssues e.NODE_ENV).map (fun m => ⟨"NODE_ENV", m⟩) ++
  (databaseUrlIssues e.DATABASE_URL).map (fun m => ⟨"DATABASE_URL", m⟩)

/-- The startup validator accepts the environment exactly when
`envSchema.parse` raises no issue (otherwise `validateEnvironment`
prints the issues and exits the process with a non-zero status). -/
def envAccepts (e : EnvState) : Bool := (envSchemaIssues e).isEmpty

/-- The runtime mode as typed by the validator. -/
inductive Mode where
  | development
  | production
  | test
deriving Repr, DecidableEq

/-- The fully-typed configuration produced by a successful
`validateEnvironment` run. -/
structure ValidatedEnv where
  PORT : Nat
  NODE_ENV : Mode
  DATABASE_URL : String
deriving Repr, DecidableEq

/-- The typed integer produced by the PORT rule when it accepts, `none`
when it rejects (the `transform(Number)` of the all-digit string). -/
def portParse (v : Option String) : Option Nat :=
  match v with
  | none => none
  | some s => if portIssues (some s) = [] then some (natOfDigits s.data) else none

/-- The function `validateEnvironment`: either the typed configuration or the
accumulated issue list (on which the process terminates). -/
def validateEnvironment (e : EnvState) : Except (List ValidationIssue) ValidatedEnv :=
  if envAccepts e then
    match e.PORT, e.NODE_ENV, e.DATABASE_URL with
    | some p, some m, some d =>
      .ok ⟨natOfDigits p.data,
           if m = "development" then .development
           else if m = "production" then .production else .test, d⟩
    | _, _, _ => .error (envSchemaIssues e)
  else .error (envSchemaIssues e)

/-! ## Health Reporter (GET /health) -/

/-- JS truthiness of `process.env[varName]`: false for an absent
variable and for the empty string. -/
def truthy : Option String → Bool
  | none => false
  | some s => !s.data.isEmpty

/-- A value thrown by JS code: either an `Error` object carrying a
message, or any other value (which has no message). -/
inductive Throwable where
  | errObj (msg : String)
  | nonError
deriving Repr, DecidableEq

/-- Outcome of the datastore round-trip probe `prisma.$queryRaw SELECT 1`:
either it resolves, or it throws some value. -/
inductive ProbeResult where
  | ok
  | threw (t : Throwable)
deriving Repr, DecidableEq

/-- Status of one health sub-check (the union type `ok | error`). -/
inductive CheckStatus where
  | ok
  | error
deriving Repr, DecidableEq

/-- One health sub-check as serialized in the response: status, message
(assigned in every branch of the handler) and the optional `missing`
list (assigned only in the configuration-error branch). -/
structure CheckResult where
  status : CheckStatus
  message : String
  missing : Option (List String)
deriving Repr, DecidableEq

/-- The database sub-check: the probe result is classified inside a
`try/catch`; an `Error` contributes its own message, any other thrown
value the fallback text. -/
def databaseCheck : ProbeResult → CheckResult
  | .ok => ⟨.ok, "Database connection successful", none⟩
  | .threw (.errObj m) => ⟨.error, m, none⟩
  | .threw .nonError => ⟨.error, "Database connection failed", none⟩

/-- The `missingVars` list: the loop over
`[PORT, NODE_ENV, DATABASE_URL]` pushes each falsy variable name. -/
def missingVars (e : EnvState) : List String :=
  (if truthy e.PORT then [] else ["PORT"]) ++
  (if truthy e.NODE_ENV then [] else ["NODE_ENV"]) ++
  (if truthy e.DATABASE_URL then [] else ["DATABASE_URL"])

/-- The `invalidVars` list, pushed in source order: NODE_ENV enum
membership, then PORT via `parseInt` with range `1..65535`, then
DATABASE_URL via `startsWith`; each check runs only when the variable is
truthy. -/
def invalidVars (e : EnvState) : List String :=
  (if truthy e.NODE_ENV then
     match e.NODE_ENV with
     | some s =>
       if s = "development" || s = "production" || s = "test" then []
       else ["NODE_ENV (must be development, production, or test)"]
     | none => []
   else []) ++
  (if truthy e.PORT then
     match e.PORT with
     | some s =>
       match jsParseInt s with
       | none => ["PORT (must be between 1 and 65535)"]
       | some n =>
         if n < 1 || n > 65535 then ["PORT (must be between 1 and 65535)"] else []
     | none => []
   else []) ++
  (if truthy e.DATABASE_URL then
     match e.DATABASE_URL with
     | some s => if startsWithMysql s then [] else ["DATABASE_URL (must start with mysql://)"]
     | none => []
   else [])

/-- The configuration sub-check of the health endpoint. -/
def configCheck (e : EnvState) : CheckResult :=
  let missing := missingVars e
  let invalid := invalidVars e
  if missing.isEmpty && invalid.isEmpty then
    ⟨.ok, "All required environment variables are configured", none⟩
  else
    ⟨.error,
     jsJoin "; "
       ((if missing.isEmpty then [] else ["Missing: " ++ jsJoin ", " missing]) ++
        (if invalid.isEmpty then [] else ["Invalid: " ++ jsJoin ", " invalid])),
     some missing⟩

/-- The health endpoint reports configuration-ok exactly when both
lists are empty. -/
def configOk (e : EnvState) : Bool :=
  (missingVars e).isEmpty && (invalidVars e).isEmpty

/-- The two sub-checks of a Health Report. -/
structure HealthChecks where
  database : CheckResult
  configuration : CheckResult
deriving Repr, DecidableEq

/-- Debug metadata spread into the response only in development mode
(`process.version` and `process.platform`). -/
structure DebugInfo where
  version : String
  platform : String
deriving Repr, DecidableEq

/-- The serialized response of `GET /health` together with its HTTP
status code. -/
structure HealthResponse where
  httpStatus : Nat
  status : String
  timestamp : String
  environment : Mode
  checks : HealthChecks
  uptime : Nat
  debug : Option DebugInfo
deriving Repr, DecidableEq

/-- The `GET /health` handler.  `mode` is the startup-validated
`NODE_ENV` constant (captured once by the Config Validator); `e` is the
current environment state re-read through `process.env`; `probe` is the
outcome of the datastore round trip; `ts`, `up`, `ver`, `plat` are the
ambient timestamp, process uptime, runtime version and platform. -/
def healthResponse (mode : Mode) (e : EnvState) (probe : ProbeResult)
    (ts : String) (up : Nat) (ver plat : String) : HealthResponse :=
  let db := databaseCheck probe
  let cfg := configCheck e
  let isHealthy := db.status = CheckStatus.ok ∧ cfg.status = CheckStatus.ok
  { httpStatus := if isHealthy then 200 else 503
    status := if isHealthy then "ok" else "error"
    timestamp := ts
    environment := mode
    checks := ⟨db, cfg⟩
    uptime := up
    debug := if mode = Mode.development then some ⟨ver, plat⟩ else none }

/-! ## Request validation middleware -/

/-- Result of one zod `schema.parse(part)` call inside the middleware
`try` block: a parsed value, a thrown `ZodError` with its issue list, or
any other thrown value (tagged abstractly). -/
inductive ParseResult (V : Type) where
  | ok (v : V)
  | zodError (issues : List ValidationIssue)
  | otherError (tag : Nat)
deriving Repr, DecidableEq

/-- The optional per-part schemas handed to the middleware factory;
each schema is its parse function. -/
structure Schemas (V : Type) where
  body : Option (V → ParseResult V)
  query : Option (V → ParseResult V)
  params : Option (V → ParseResult V)

/-- The mutable request as seen by the middleware: its three parts. -/
structure MwReq (V : Type) where
  body : V
  query : V
  params : V
deriving Repr, DecidableEq

/-- Observable outcome of the middleware: `next()` reached with the
(possibly rewritten) request, a 400 response with its `details` list
alongside the request state at that moment, or `next(error)` for a
non-zod error. -/
inductive MwOutcome (V : Type) where
  | nextCalled (req : MwReq V)
  | respond400 (details : List ValidationIssue) (req : MwReq V)
  | forwarded (tag : Nat) (req : MwReq V)
deriving Repr, DecidableEq

/-- The `details` entry derived from one zod issue:
`(err.path.join("."), err.message)`; the embedded issues already carry
the joined path in `field`. -/
def detailOf (i : ValidationIssue) : ValidationIssue := ⟨i.field, i.message⟩

/-- Stage 3 of the middleware: the `params` parse. -/
def validateParamsStage {V : Type} (sch : Schemas V) (req : MwReq V) : MwOutcome V :=
  match sch.params with
  | none => .nextCalled req
  | some f =>
    match f req.params with
    | .ok v => .nextCalled { req with params := v }
    | .zodError issues => .respond400 (issues.map detailOf) req
    | .otherError t => .forwarded t req

/-- Stage 2 of the middleware: the `query` parse. -/
def validateQueryStage {V : Type} (sch : Schemas V) (req : MwReq V) : MwOutcome V :=
  match sch.query with
  | none => validateParamsStage sch req
  | some f =>
    match f req.query with
    | .ok v => validateParamsStage sch { req with query := v }
    | .zodError issues => .respond400 (issues.map detailOf) req
    | .otherError t => .forwarded t req

/-- The middleware `validate(schema)` applied to a request: parse and
replace `req.body`, then `req.query`, then `req.params`; the first
thrown `ZodError` yields the 400 response (with the parts rewritten so
far still in place), any other thrown value is passed to `next(error)`,
and `next()` is reached only when every supplied schema accepted. -/
def validate {V : Type} (sch : Schemas V) (req : MwReq V) : MwOutcome V :=
  match sch.body with
  | none => validateQueryStage sch req
  | some f =>
    match f req.body with
    | .ok v => validateQueryStage sch { req with body := v }
    | .zodError issues => .respond400 (issues.map detailOf) req
    | .otherError t => .forwarded t req

/-! ## Terminal error handler -/

/-- A JS `Error` reaching the global error handler. -/
structure ErrObj where
  message : String
  name : String
  stack : String
deriving Repr, DecidableEq

/-- Hex digit character for one nibble. -/
def hexChar (n : Fin 16) : Char :=
  if n.val < 10 then Char.ofNat (48 + n.val) else Char.ofNat (87 + n.val)

/-- Model of `crypto.randomUUID()`: an RFC 4122 UUID rendered as 36 characters
in the 8-4-4-4-12 hyphenated hex format; the 32 nibbles are drawn from
the random stream `nib` (the fixed version/variant nibbles are also
left to the stream, which is immaterial to the format and length). -/
def uuidString (nib : Nat → Fin 16) : String :=
  let seg (a len : Nat) : List Char := (List.range len).map (fun i => hexChar (nib (a + i)))
  String.mk (seg 0 8 ++ '-' :: seg 8 4 ++ '-' :: seg 12 4 ++ '-' :: seg 16 4 ++ '-' :: seg 20 12)

/-- The JSON body (plus HTTP status) produced by the global error
handler; `stack` and `name` are attached only in development mode. -/
structure ErrorResponse where
  httpStatus : Nat
  error : String
  errorId : String
  message : String
  stack : Option String
  name : Option String
deriving Repr, DecidableEq

/-- The generic production-mode message of the global error handler. -/
def genericErrorMessage : String :=
  "An unexpected error occurred. Please contact support with the error ID if the problem persists."

/-- The global error handler: log with a fresh correlation identifier
(`logError` generates `crypto.randomUUID()` when none is supplied),
then answer 500 with the identifier always included and the underlying
message, stack and name only in development mode. -/
def globalErrorHandler (mode : Mode) (err : ErrObj) (nib : Nat → Fin 16) : ErrorResponse :=
  let errorId := uuidString nib
  if mode = Mode.development then
    ⟨500, "Internal Server Error", errorId, err.message, some err.stack, some err.name⟩
  else
    ⟨500, "Internal Server Error", errorId, genericErrorMessage, none, none⟩

/-! ## Helper lemmas -/

/-- An ASCII digit is not parseInt whitespace. -/
theorem jsDigit_not_jsSpace {c : Char} (h : jsDigit c = true) : jsSpace c = false := by
  simp only [jsDigit, Bool.and_eq_true, decide_eq_true_eq] at h
  simp only [jsSpace, Bool.or_eq_false_iff, decide_eq_false_iff_not]
  omega

/-- An ASCII digit is not the minus sign. -/
theorem jsDigit_ne_minus {c : Char} (h : jsDigit c = true) : c ≠ '-' := by
  simp only [jsDigit, Bool.and_eq_true, decide_eq_true_eq] at h
  intro hc
  subst hc
  simp at h

/-- An ASCII digit is not the plus sign. -/
theorem jsDigit_ne_plus {c : Char} (h : jsDigit c = true) : c ≠ '+' := by
  simp only [jsDigit, Bool.and_eq_true, decide_eq_true_eq] at h
  intro hc
  subst hc
  simp at h

/-- List `takeWhile` keeps a list all of whose elements satisfy the predicate. -/
theorem takeWhile_of_all {α : Type} (p : α → Bool) :
    ∀ l : List α, l.all p = true → l.takeWhile p = l := by
  intro l
  induction l with
  | nil => intro _; rfl
  | cons a l ih =>
    intro h
    simp only [List.all_cons, Bool.and_eq_true] at h
    simp [List.takeWhile_cons, h.1, ih h.2]

/-- On a non-empty all-digit string, JS `parseInt` returns exactly the
numeric value of the digits. -/
theorem jsParseInt_digits {s : String} (h : digitString s = true) :
    jsParseInt s = some (natOfDigits s.data : Int) := by
  simp only [digitString, Bool.and_eq_true, Bool.not_eq_true'] at h
  obtain ⟨hne, hall⟩ := h
  cases hd : s.data with
  | nil => rw [hd] at hne; simp at hne
  | cons c rest =>
    have hallc : (c :: rest).all jsDigit = true := hd ▸ hall
    simp only [List.all_cons, Bool.and_eq_true] at hallc
    obtain ⟨hc, hrest⟩ := hallc
    simp only [jsParseInt, hd, List.dropWhile_cons, jsDigit_not_jsSpace hc,
      Bool.false_eq_true, if_false]
    rw [if_neg (jsDigit_ne_minus hc), if_neg (jsDigit_ne_plus hc)]
    have htake : (c :: rest).takeWhile jsDigit = c :: rest :=
      takeWhile_of_all jsDigit (c :: rest) (by simp [hc, hrest])
    simp [digitRun, htake]

/-- A string whose character list is non-empty is itself non-empty. -/
theorem string_ne_empty_of_data {s : String} (h : s.data ≠ []) : s ≠ "" := by
  intro hc
  subst hc
  exact h rfl

/-- Joining a list whose head is non-empty yields a non-empty string. -/
theorem jsJoin_cons_ne_empty {a : String} (ha : a.data ≠ []) (sep : String)
    (rest : List String) : jsJoin sep (a :: rest) ≠ "" := by
  cases rest with
  | nil =>
    simpa [jsJoin] using string_ne_empty_of_data ha
  | cons b rest =>
    apply string_ne_empty_of_data
    simp only [jsJoin, String.data_append, ne_eq, List.append_eq_nil]
    intro hc
    exact ha hc.1.1

/-- The PORT rule accepts exactly the non-empty all-digit strings whose
value lies strictly between 0 and 65536. -/
theorem portIssues_eq_nil_iff (v : Option String) :
    portIssues v = [] ↔
      ∃ s, v = some s ∧ digitString s = true ∧
        0 < natOfDigits s.data ∧ natOfDigits s.data < 65536 := by
  cases v with
  | none => simp [portIssues]
  | some s =>
    simp only [portIssues, Option.some.injEq]
    by_cases hd : digitString s
    · have hne : ¬s.data.length < 1 := by
        simp only [digitString, Bool.and_eq_true, Bool.not_eq_true'] at hd
        have := hd.1
        cases hl : s.data with
        | nil => rw [hl] at this; simp at this
        | cons a l => simp
      simp only [hne, if_false, hd, if_true, List.nil_append, List.isEmpty_nil, if_true]
      by_cases hr : 0 < natOfDigits s.data ∧ natOfDigits s.data < 65536
      · simp [hr, hd]
      · simp only [hr, if_false]
        constructor
        · intro h; simp at h
        · rintro ⟨t, ht, _, h1, h2⟩
          cases ht
          exact absurd ⟨h1, h2⟩ hr
    · simp only [hd, Bool.false_eq_true, if_false]
      constructor
      · intro h
        by_cases hl : s.data.length < 1 <;> simp [hl] at h
      · rintro ⟨t, ht, htd, _⟩
        cases ht
        exact absurd htd hd

/-- The NODE_ENV rule accepts exactly the three enum members. -/
theorem nodeEnvIssues_eq_nil_iff (v : Option String) :
    nodeEnvIssues v = [] ↔
      ∃ s, v = some s ∧ (s = "development" ∨ s = "production" ∨ s = "test") := by
  cases v with
  | none => simp [nodeEnvIssues]
  | some s =>
    simp only [nodeEnvIssues, Option.some.injEq]
    by_cases h : s = "development" ∨ s = "production" ∨ s = "test"
    · have hb : (s = "development" || s = "production" || s = "test") = true := by
        rcases h with h | h | h <;> simp [h]
      simp [hb, h]
    · have hb : (s = "development" || s = "production" || s = "test") = false := by
        push_neg at h
        simp [h.1, h.2.1, h.2.2]
      simp only [hb, Bool.false_eq_true, if_false]
      constructor
      · intro hc; simp at hc
      · rintro ⟨t, ht, hmem⟩
        cases ht
        exact absurd hmem h

/-- The DATABASE_URL rule accepts exactly the strings matching
`^mysql:\/\/.+`. -/
theorem databaseUrlIssues_eq_nil_iff (v : Option String) :
    databaseUrlIssues v = [] ↔ ∃ s, v = some s ∧ mysqlRegexMatch s = true := by
  cases v with
  | none => simp [databaseUrlIssues]
  | some s =>
    simp only [databaseUrlIssues, Option.some.injEq]
    by_cases hm : mysqlRegexMatch s
    · have hne : ¬s.data.length < 1 := by
        unfold mysqlRegexMatch at hm
        cases hl : s.data with
        | nil => rw [hl] at hm; simp at hm
        | cons a l => simp
      have hlen : s.length = s.data.length := rfl
      simp [hne, hm]
      omega
    · simp only [hm, Bool.false_eq_true, if_false]
      constructor
      · intro h
        by_cases hl : s.data.length < 1 <;> simp [hl] at h
      · rintro ⟨t, ht, htm⟩
        cases ht
        exact absurd htm hm

/-- The predicate `envAccepts` unfolded to the three per-setting conditions. -/
theorem envAccepts_iff (e : EnvState) :
    envAccepts e = true ↔
      portIssues e.PORT = [] ∧ nodeEnvIssues e.NODE_ENV = [] ∧
      databaseUrlIssues e.DATABASE_URL = [] := by
  simp [envAccepts, envSchemaIssues, List.isEmpty_iff]

/-- A string with a non-empty prefix appended is non-empty. -/
theorem prefixed_data_ne_nil (p x : String) (hp : p.data ≠ []) : (p ++ x).data ≠ [] := by
  intro hc
  rw [String.data_append] at hc
  rcases List.append_eq_nil.mp hc with ⟨h1, _⟩
  exact hp h1

/-- When the health configuration check fails, its sub-check reports
status error together with a non-empty message. -/
theorem configCheck_error {e : EnvState} (h : configOk e = false) :
    (configCheck e).status = CheckStatus.error ∧ (configCheck e).message ≠ "" := by
  unfold configOk at h
  by_cases hm : (missingVars e).isEmpty
  · have hi : (invalidVars e).isEmpty = false := by
      rw [hm, Bool.true_and] at h
      exact h
    refine ⟨by simp [configCheck, hm, hi], ?_⟩
    simp only [configCheck, hm, hi, Bool.and_false, Bool.false_eq_true, if_false, if_true,
      List.nil_append]
    exact jsJoin_cons_ne_empty
      (prefixed_data_ne_nil "Invalid: " (jsJoin ", " (invalidVars e)) (by decide)) "; " []
  · have hm' : (missingVars e).isEmpty = false := by
      cases hmv : (missingVars e).isEmpty
      · rfl
      · exact absurd hmv hm
    refine ⟨by simp [configCheck, hm'], ?_⟩
    simp only [configCheck, hm', Bool.false_and, Bool.false_eq_true, if_false]
    cases hinv : (invalidVars e).isEmpty <;>
      simp only [if_true, if_false, Bool.false_eq_true, List.cons_append, List.nil_append] <;>
      exact jsJoin_cons_ne_empty
        (prefixed_data_ne_nil "Missing: " (jsJoin ", " (missingVars e)) (by decide)) "; " _

/-- The regex `^\d+$` unfolded: non-empty and all ASCII digits. -/
theorem digitString_iff (s : String) :
    digitString s = true ↔ s.data ≠ [] ∧ s.data.all jsDigit = true := by
  simp [digitString, List.isEmpty_iff]

/-! ## Claim theorems -/

/-- C5: the PORT rule rejects "0", "65536" and "abc", accepts "1" and
"65535" with typed integers 1 and 65535, and in general accepts exactly
the non-empty all-digit strings whose integer value n satisfies
0 < n < 65536, producing that value. -/
theorem portRuleCharacterization :
    portParse (some "0") = none ∧ portParse (some "65536") = none ∧
    portParse (some "abc") = none ∧ portParse (some "1") = some 1 ∧
    portParse (some "65535") = some 65535 ∧
    ∀ s : String,
      portParse (some s) =
        if s.data ≠ [] ∧ s.data.all jsDigit = true ∧
           0 < natOfDigits s.data ∧ natOfDigits s.data < 65536
        then some (natOfDigits s.data) else none := by
  refine ⟨rfl, rfl, rfl, rfl, rfl, fun s => ?_⟩
  by_cases h : s.data ≠ [] ∧ s.data.all jsDigit = true ∧
      0 < natOfDigits s.data ∧ natOfDigits s.data < 65536
  · rw [if_pos h]
    have hpi : portIssues (some s) = [] :=
      (portIssues_eq_nil_iff (some s)).mpr
        ⟨s, rfl, (digitString_iff s).mpr ⟨h.1, h.2.1⟩, h.2.2.1, h.2.2.2⟩
    simp [portParse, hpi]
  · rw [if_neg h]
    have hpi : portIssues (some s) ≠ [] := by
      intro hnil
      rcases (portIssues_eq_nil_iff (some s)).mp hnil with ⟨t, ht, htd, h1, h2⟩
      injection ht with ht'
      subst ht'
      rcases (digitString_iff s).mp htd with ⟨hne, hall⟩
      exact h ⟨hne, hall, h1, h2⟩
    simp [portParse, hpi]

/-- C4: every error reaching the terminal handler yields one HTTP 500
response whose body carries a non-empty correlation identifier; the
underlying message, stack and name are attached exactly in development
mode, while production (and test) mode receives the generic support
message and no stack or name. -/
theorem errorHandlerResponseSpec (mode : Mode) (err : ErrObj) (nib : Nat → Fin 16) :
    (globalErrorHandler mode err nib).httpStatus = 500 ∧
    (globalErrorHandler mode err nib).error = "Internal Server Error" ∧
    0 < (globalErrorHandler mode err nib).errorId.length ∧
    (globalErrorHandler mode err nib).message =
      (if mode = Mode.development then err.message else genericErrorMessage) ∧
    (globalErrorHandler mode err nib).stack =
      (if mode = Mode.development then some err.stack else none) ∧
    (globalErrorHandler mode err nib).name =
      (if mode = Mode.development then some err.name else none) := by
  have hlen : (uuidString nib).length = 36 := by
    simp [uuidString, String.length]
  cases mode <;> simp [globalErrorHandler, hlen]

/-- C6: every exception thrown by the datastore probe is caught and
reported as a database sub-check with status error; an `Error` object
contributes its own message, any other thrown value the fixed fallback,
and the health handler still produces a response (it is a total
function of the probe outcome). -/
theorem dbExceptionCaughtAndReported (mode : Mode) (e : EnvState) (ts : String)
    (up : Nat) (ver plat : String) :
    (∀ t, (healthResponse mode e (.threw t) ts up ver plat).checks.database.status =
      CheckStatus.error) ∧
    (∀ m, (healthResponse mode e (.threw (.errObj m)) ts up ver plat).checks.database.message
      = m) ∧
    (healthResponse mode e (.threw .nonError) ts up ver plat).checks.database.message =
      "Database connection failed" := by
  refine ⟨fun t => ?_, fun m => rfl, rfl⟩
  cases t <;> rfl

/-- C8: the debug metadata (version, platform) of the health response
is present exactly when the startup runtime mode is development; in
particular it is never present in production mode. -/
theorem healthDebugOnlyInDevelopment (mode : Mode) (e : EnvState) (pr : ProbeResult)
    (ts : String) (up : Nat) (ver plat : String) :
    (healthResponse mode e pr ts up ver plat).debug =
      (if mode = Mode.development then some ⟨ver, plat⟩ else none) := rfl

/-- C10: the environment field and the debug-metadata gate of the
health response depend only on the startup-validated runtime mode,
never on the current environment state: two invocations with the same
startup mode and different current environments agree on both. -/
theorem healthEnvDebugNoninterference (mode : Mode) (e1 e2 : EnvState) (pr : ProbeResult)
    (ts : String) (up : Nat) (ver plat : String) :
    (healthResponse mode e1 pr ts up ver plat).environment = mode ∧
    (healthResponse mode e1 pr ts up ver plat).environment =
      (healthResponse mode e2 pr ts up ver plat).environment ∧
    (healthResponse mode e1 pr ts up ver plat).debug =
      (healthResponse mode e2 pr ts up ver plat).debug := ⟨rfl, rfl, rfl⟩

/-- A string matching `^mysql:\/\/.+` starts with `mysql://` and is
non-empty. -/
theorem mysqlRegexMatch_startsWith {s : String} (h : mysqlRegexMatch s = true) :
    startsWithMysql s = true ∧ s.data.isEmpty = false := by
  unfold mysqlRegexMatch at h
  split at h
  next c rest heq =>
    unfold startsWithMysql
    rw [heq]
    exact ⟨rfl, rfl⟩
  next heq => simp at h

/-- C1 counterexample: on the state PORT="8080", NODE_ENV="development",
DATABASE_URL="mysql://" the health endpoint reports configuration-ok
(`startsWith` accepts the bare scheme) while the Config Validator
rejects it (the regex `^mysql:\/\/.+` requires a character after the
scheme), so the two checks are not equivalent. -/
theorem healthConfigNotEquivalentToValidator :
    configOk ⟨some "8080", some "development", some "mysql://"⟩ = true ∧
    envAccepts ⟨some "8080", some "development", some "mysql://"⟩ = false := ⟨rfl, rfl⟩

/-- C1 amended: whenever the Config Validator accepts the environment
state, the health endpoint reports configuration-ok; the converse
fails, the health re-check being strictly weaker. -/
theorem validatorAcceptImpliesHealthConfigOk (e : EnvState) (h : envAccepts e = true) :
    configOk e = true := by
  rcases (envAccepts_iff e).mp h with ⟨hp, hn, hd⟩
  rcases (portIssues_eq_nil_iff _).mp hp with ⟨ps, hpe, hpd, hp1, hp2⟩
  rcases (nodeEnvIssues_eq_nil_iff _).mp hn with ⟨ns, hne2, hnm⟩
  rcases (databaseUrlIssues_eq_nil_iff _).mp hd with ⟨ds, hde, hdm⟩
  rcases (digitString_iff ps).mp hpd with ⟨hpne, hpall⟩
  have hpse : ps.data.isEmpty = false := by
    cases hl : ps.data with
    | nil => exact absurd hl hpne
    | cons a l => rfl
  have hnse : ns.data.isEmpty = false := by
    rcases hnm with h' | h' | h' <;> subst h' <;> rfl
  have hmy := mysqlRegexMatch_startsWith hdm
  have hparse := jsParseInt_digits hpd
  have hcond : (decide ((natOfDigits ps.data : Int) < 1) ||
      decide ((natOfDigits ps.data : Int) > 65535)) = false := by
    simp only [Bool.or_eq_false_iff, decide_eq_false_iff_not, not_lt, gt_iff_lt]
    omega
  have hnsb : (ns = "development" || ns = "production" || ns = "test") = true := by
    rcases hnm with h' | h' | h' <;> simp [h']
  simp only [configOk, missingVars, invalidVars, truthy, hpe, hne2, hde, hpse, hnse,
    hmy.1, hmy.2, hparse, hnsb, hcond, Bool.not_false, if_true, if_false,
    List.nil_append, List.append_nil]
  simp

/-- C1 amended witness: a concrete state the validator accepts, on
which the health check indeed reports configuration-ok. -/
theorem validatorAcceptImpliesHealthConfigOkWitness :
    envAccepts ⟨some "8080", some "development", some "mysql://db"⟩ = true ∧
    configOk ⟨some "8080", some "development", some "mysql://db"⟩ = true :=
  ⟨rfl, validatorAcceptImpliesHealthConfigOk ⟨some "8080", some "development", some "mysql://db"⟩ rfl⟩

/-- C2 counterexample: with PORT absent, NODE_ENV="staging" and
DATABASE_URL="" all three settings are invalid, yet the validator
accumulates four Validation Errors, not three: the empty DATABASE_URL
violates both its `min(1)` rule and its regex rule, and both issues are
reported. -/
theorem allThreeInvalidNotExactlyThree :
    (portIssues none ≠ [] ∧ nodeEnvIssues (some "staging") ≠ [] ∧
     databaseUrlIssues (some "") ≠ []) ∧
    (envSchemaIssues ⟨none, some "staging", some ""⟩).length = 4 ∧
    (envSchemaIssues ⟨none, some "staging", some ""⟩).length ≠ 3 := by
  refine ⟨⟨?_, ?_, ?_⟩, rfl, ?_⟩ <;> decide

/-- C2 amended: with all three settings invalid the validator
accumulates at least one Validation Error per setting — hence at least
three, with no short-circuit on the first failure — and exactly three
when each setting violates a single rule, as when all three are absent. -/
theorem allThreeInvalidAtLeastThreeIssues (p n d : Option String)
    (hp : portIssues p ≠ []) (hn : nodeEnvIssues n ≠ [])
    (hd : databaseUrlIssues d ≠ []) :
    3 ≤ (envSchemaIssues ⟨p, n, d⟩).length ∧
    (envSchemaIssues ⟨none, none, none⟩).length = 3 := by
  refine ⟨?_, rfl⟩
  have h1 : 0 < (portIssues p).length := List.length_pos.mpr hp
  have h2 : 0 < (nodeEnvIssues n).length := List.length_pos.mpr hn
  have h3 : 0 < (databaseUrlIssues d).length := List.length_pos.mpr hd
  simp only [envSchemaIssues, List.length_append, List.length_map]
  omega

/-- C2 amended witness: the all-absent state has every setting invalid
and at least three accumulated errors. -/
theorem allThreeInvalidAtLeastThreeIssuesWitness :
    (portIssues none ≠ [] ∧ nodeEnvIssues none ≠ [] ∧ databaseUrlIssues none ≠ []) ∧
    3 ≤ (envSchemaIssues ⟨none, none, none⟩).length :=
  ⟨⟨by decide, by decide, by decide⟩,
   (allThreeInvalidAtLeastThreeIssues none none none (by decide) (by decide) (by decide)).1⟩

/-- The health response HTTP status unfolded. -/
theorem healthResponse_httpStatus (mode : Mode) (e : EnvState) (pr : ProbeResult)
    (ts : String) (up : Nat) (ver plat : String) :
    (healthResponse mode e pr ts up ver plat).httpStatus =
      if (databaseCheck pr).status = CheckStatus.ok ∧ (configCheck e).status = CheckStatus.ok
      then 200 else 503 := rfl

/-- The health response body status unfolded. -/
theorem healthResponse_status (mode : Mode) (e : EnvState) (pr : ProbeResult)
    (ts : String) (up : Nat) (ver plat : String) :
    (healthResponse mode e pr ts up ver plat).status =
      if (databaseCheck pr).status = CheckStatus.ok ∧ (configCheck e).status = CheckStatus.ok
      then "ok" else "error" := rfl

/-- The configuration sub-check reports ok exactly when both the
missing list and the invalid list are empty. -/
theorem configCheck_status_ok (e : EnvState) :
    (configCheck e).status = CheckStatus.ok ↔ configOk e = true := by
  unfold configCheck configOk
  cases h : ((missingVars e).isEmpty && (invalidVars e).isEmpty) <;> simp [h]

/-- C3 counterexample: a datastore probe that throws an `Error` whose
message is empty yields HTTP 503 with a failing database sub-check
whose message is the empty string, contradicting the non-empty-message
part of the claim. -/
theorem healthEmptyDbMessageCounterexample :
    (healthResponse Mode.production ⟨some "8080", some "production", some "mysql://db"⟩
      (.threw (.errObj "")) "ts" 0 "v" "p").httpStatus = 503 ∧
    (healthResponse Mode.production ⟨some "8080", some "production", some "mysql://db"⟩
      (.threw (.errObj "")) "ts" 0 "v" "p").status = "error" ∧
    (healthResponse Mode.production ⟨some "8080", some "production", some "mysql://db"⟩
      (.threw (.errObj "")) "ts" 0 "v" "p").checks.database.status = CheckStatus.error ∧
    (healthResponse Mode.production ⟨some "8080", some "production", some "mysql://db"⟩
      (.threw (.errObj "")) "ts" 0 "v" "p").checks.database.message = "" := by
  refine ⟨?_, ?_, rfl, rfl⟩ <;> rfl

/-- C3 amended: `GET /health` answers 200 with body status ok exactly
when the probe succeeds and the three settings pass the health
re-check, and 503 with body status error otherwise; a failing
configuration sub-check always carries status error and a non-empty
message, while a failing database sub-check carries status error and
the thrown `Error` message verbatim — which may itself be empty. -/
theorem healthOverallStatusCharacterization (mode : Mode) (e : EnvState) (pr : ProbeResult)
    (ts : String) (up : Nat) (ver plat : String) :
    ((healthResponse mode e pr ts up ver plat).httpStatus = 200 ∧
      (healthResponse mode e pr ts up ver plat).status = "ok" ↔
        pr = ProbeResult.ok ∧ configOk e = true) ∧
    (¬(pr = ProbeResult.ok ∧ configOk e = true) →
      (healthResponse mode e pr ts up ver plat).httpStatus = 503 ∧
      (healthResponse mode e pr ts up ver plat).status = "error") ∧
    (configOk e = false →
      (healthResponse mode e pr ts up ver plat).checks.configuration.status =
        CheckStatus.error ∧
      (healthResponse mode e pr ts up ver plat).checks.configuration.message ≠ "") ∧
    (∀ m, pr = ProbeResult.threw (Throwable.errObj m) →
      (healthResponse mode e pr ts up ver plat).checks.database.status = CheckStatus.error ∧
      (healthResponse mode e pr ts up ver plat).checks.database.message = m) := by
  have hdb : (databaseCheck pr).status = CheckStatus.ok ↔ pr = ProbeResult.ok := by
    cases pr with
    | ok => simp [databaseCheck]
    | threw t => cases t <;> simp [databaseCheck]
  have hcfg := configCheck_status_ok e
  refine ⟨?_, ?_, ?_, ?_⟩
  · rw [healthResponse_httpStatus, healthResponse_status]
    by_cases hh : (databaseCheck pr).status = CheckStatus.ok ∧
        (configCheck e).status = CheckStatus.ok
    · simp only [if_pos hh]
      exact iff_of_true (by simp) ⟨hdb.mp hh.1, hcfg.mp hh.2⟩
    · simp only [if_neg hh]
      constructor
      · rintro ⟨h200, _⟩
        exact absurd h200 (by decide)
      · rintro ⟨h1, h2⟩
        exact absurd ⟨hdb.mpr h1, hcfg.mpr h2⟩ hh
  · intro hnot
    rw [healthResponse_httpStatus, healthResponse_status]
    have hh : ¬((databaseCheck pr).status = CheckStatus.ok ∧
        (configCheck e).status = CheckStatus.ok) :=
      fun hh => hnot ⟨hdb.mp hh.1, hcfg.mp hh.2⟩
    rw [if_neg hh, if_neg hh]
    exact ⟨rfl, rfl⟩
  · intro hcf
    have hcc : (healthResponse mode e pr ts up ver plat).checks.configuration =
        configCheck e := rfl
    rw [hcc]
    exact configCheck_error hcf
  · intro m hm
    subst hm
    exact ⟨rfl, rfl⟩

/-- C3 amended witness: the all-absent state fails the configuration
check and the health endpoint reports a failing configuration sub-check
with a non-empty message, via the amended theorem. -/
theorem healthOverallStatusCharacterizationWitness :
    (healthResponse Mode.production ⟨none, none, none⟩ ProbeResult.ok "ts" 0 "v" "p").checks.configuration.status = CheckStatus.error ∧
    (healthResponse Mode.production ⟨none, none, none⟩ ProbeResult.ok "ts" 0 "v" "p").checks.configuration.message ≠ "" :=
  (healthOverallStatusCharacterization Mode.production ⟨none, none, none⟩ ProbeResult.ok
    "ts" 0 "v" "p").2.2.1 (by decide)

/-- C7: whenever a supplied schema rejects its request part (the first
rejection encountered in the order body, query, params), the middleware
responds 400 with one (field, message) detail per issue of the schema
engine error and never invokes the downstream handler; a non-schema
error is instead forwarded to the generic error handler. -/
theorem validateRejectsWithDetails {V : Type} (sch : Schemas V) (req : MwReq V) :
    (∀ f issues, sch.body = some f → f req.body = ParseResult.zodError issues →
      validate sch req = MwOutcome.respond400 (issues.map detailOf) req ∧
      (issues.map detailOf).length = issues.length ∧
      ∀ r, validate sch req ≠ MwOutcome.nextCalled r) ∧
    (∀ f t, sch.body = some f → f req.body = ParseResult.otherError t →
      validate sch req = MwOutcome.forwarded t req) ∧
    (∀ req', ((sch.body = none ∧ req' = req) ∨
        (∃ f v, sch.body = some f ∧ f req.body = ParseResult.ok v ∧
          req' = { req with body := v })) →
      (∀ g issues, sch.query = some g → g req'.query = ParseResult.zodError issues →
        validate sch req = MwOutcome.respond400 (issues.map detailOf) req' ∧
        ∀ r, validate sch req ≠ MwOutcome.nextCalled r) ∧
      (∀ g t, sch.query = some g → g req'.query = ParseResult.otherError t →
        validate sch req = MwOutcome.forwarded t req') ∧
      (∀ req'', ((sch.query = none ∧ req'' = req') ∨
          (∃ g w, sch.query = some g ∧ g req'.query = ParseResult.ok w ∧
            req'' = { req' with query := w })) →
        (∀ p issues, sch.params = some p → p req''.params = ParseResult.zodError issues →
          validate sch req = MwOutcome.respond400 (issues.map detailOf) req'' ∧
          ∀ r, validate sch req ≠ MwOutcome.nextCalled r) ∧
        (∀ p t, sch.params = some p → p req''.params = ParseResult.otherError t →
          validate sch req = MwOutcome.forwarded t req''))) := by
  have hbody : ∀ req', ((sch.body = none ∧ req' = req) ∨
      (∃ f v, sch.body = some f ∧ f req.body = ParseResult.ok v ∧
        req' = { req with body := v })) →
      validate sch req = validateQueryStage sch req' := by
    rintro req' (⟨hb, rfl⟩ | ⟨f, v, hb, hv, rfl⟩)
    · simp [validate, hb]
    · simp [validate, hb, hv]
  have hquery : ∀ req' req'', ((sch.query = none ∧ req'' = req') ∨
      (∃ g w, sch.query = some g ∧ g req'.query = ParseResult.ok w ∧
        req'' = { req' with query := w })) →
      validateQueryStage sch req' = validateParamsStage sch req'' := by
    rintro req' req'' (⟨hq, rfl⟩ | ⟨g, w, hq, hw, rfl⟩)
    · simp [validateQueryStage, hq]
    · simp [validateQueryStage, hq, hw]
  refine ⟨?_, ?_, ?_⟩
  · intro f issues hb hv
    refine ⟨by simp [validate, hb, hv], by simp, ?_⟩
    intro r
    simp [validate, hb, hv]
  · intro f t hb hv
    simp [validate, hb, hv]
  · intro req' hstep
    have hb := hbody req' hstep
    refine ⟨?_, ?_, ?_⟩
    · intro g issues hq hv
      rw [hb]
      refine ⟨by simp [validateQueryStage, hq, hv], ?_⟩
      intro r
      simp [validateQueryStage, hq, hv]
    · intro g t hq hv
      rw [hb]
      simp [validateQueryStage, hq, hv]
    · intro req'' hstep2
      have hq := hquery req' req'' hstep2
      refine ⟨?_, ?_⟩
      · intro p issues hp hv
        rw [hb, hq]
        refine ⟨by simp [validateParamsStage, hp, hv], ?_⟩
        intro r
        simp [validateParamsStage, hp, hv]
      · intro p t hp hv
        rw [hb, hq]
        simp [validateParamsStage, hp, hv]

/-- C7 witness: a body schema that rejects with one issue produces the
400 outcome with exactly that (field, message) pair and does not reach
the downstream handler. -/
theorem validateRejectsWithDetailsWitness :
    validate (V := Nat)
        ⟨some (fun _ => ParseResult.zodError [⟨"email", "Invalid email format"⟩]), none, none⟩
        ⟨0, 1, 2⟩ =
      MwOutcome.respond400 [⟨"email", "Invalid email format"⟩] ⟨0, 1, 2⟩ ∧
    ∀ r, validate (V := Nat)
        ⟨some (fun _ => ParseResult.zodError [⟨"email", "Invalid email format"⟩]), none, none⟩
        ⟨0, 1, 2⟩ ≠ MwOutcome.nextCalled r := by
  have h := (validateRejectsWithDetails (V := Nat)
      ⟨some (fun _ => ParseResult.zodError [⟨"email", "Invalid email format"⟩]), none, none⟩
      ⟨0, 1, 2⟩).1
      (fun _ => ParseResult.zodError [⟨"email", "Invalid email format"⟩])
      [⟨"email", "Invalid email format"⟩] rfl rfl
  exact ⟨h.1, h.2.2⟩

/-- C9: the middleware checks the parts in the fixed order body, query,
params, replacing each part in place as it succeeds: a body rejection
is reported before the query is even considered, a query rejection
leaves the already-parsed body value in the request carried into the
400 path, and a params rejection leaves both parsed body and parsed
query in place. -/
theorem validateReplacesPartsInOrder {V : Type} (sch : Schemas V) (req : MwReq V) :
    (∀ f issuesB, sch.body = some f → f req.body = ParseResult.zodError issuesB →
      validate sch req = MwOutcome.respond400 (issuesB.map detailOf) req) ∧
    (∀ f v g issues, sch.body = some f → f req.body = ParseResult.ok v →
      sch.query = some g → g req.query = ParseResult.zodError issues →
      validate sch req = MwOutcome.respond400 (issues.map detailOf)
        ⟨v, req.query, req.params⟩) ∧
    (∀ f v g w p issues, sch.body = some f → f req.body = ParseResult.ok v →
      sch.query = some g → g req.query = ParseResult.ok w →
      sch.params = some p → p req.params = ParseResult.zodError issues →
      validate sch req = MwOutcome.respond400 (issues.map detailOf)
        ⟨v, w, req.params⟩) := by
  refine ⟨?_, ?_, ?_⟩
  · intro f issuesB hb hv
    simp [validate, hb, hv]
  · intro f v g issues hb hv hq hw
    simp [validate, hb, hv, validateQueryStage, hq, hw]
  · intro f v g w p issues hb hv hq hw hp hz
    simp [validate, hb, hv, validateQueryStage, hq, hw, validateParamsStage, hp, hz]

/-- C9 witness: with a body schema that parses 0 to 42 and a query
schema that rejects, the 400 outcome carries the request with the body
already replaced by 42 and the params untouched. -/
theorem validateReplacesPartsInOrderWitness :
    validate (V := Nat)
        ⟨some (fun _ => ParseResult.ok 42),
         some (fun _ => ParseResult.zodError [⟨"page", "Invalid"⟩]), none⟩
        ⟨0, 1, 2⟩ =
      MwOutcome.respond400 [⟨"page", "Invalid"⟩] ⟨42, 1, 2⟩ :=
  (validateReplacesPartsInOrder (V := Nat)
      ⟨some (fun _ => ParseResult.ok 42),
       some (fun _ => ParseResult.zodError [⟨"page", "Invalid"⟩]), none⟩
      ⟨0, 1, 2⟩).2.1
    (fun _ => ParseResult.ok 42) 42
    (fun _ => ParseResult.zodError [⟨"page", "Invalid"⟩]) [⟨"page", "Invalid"⟩]
    rfl rfl rfl rfl
